import Mathlib

/-!
# Verification of the finance-data tool server's fiscal-period and metric logic

This file gives a shallow embedding, in Lean 4, of the domain logic of a
two-deployment financial-data lookup service:

* `src/mcp-server/server.py` — the standalone tool server
  (`map_month_to_quarter`, `find_quarterly_report`, and the two tool
  facades `get_company_revenue` / `get_company_free_cash_flow`); and
* `src/src/function_app.py` — the serverless trigger handlers, which
  reimplement the matching loop and the extraction logic inline.

Modelling conventions:

* A quarterly report record (a Python dict from the upstream JSON) is
  modelled by `QuarterlyReport`: the four keys the code reads are
  `Option String` fields (`none` = key absent), and `extraKeys` records
  whether the dict holds any further keys (only the dict's Python
  truthiness, i.e. emptiness, may depend on those).
* Python `int(s)` / `float(s)` on decimal strings are modelled by
  `pythonInt` / `pythonFloat` returning `Option` (`none` = `ValueError`).
  `float` values are modelled as exact rationals (`ℚ`); IEEE rounding,
  exponent notation, `inf`/`nan`, and underscore digit separators are not
  modelled — every string the claims evaluate is an exact short decimal.
* `round(x, 2)` is modelled by `round2` (round half to even at two
  decimal places, Python's rounding convention on exactly representable
  values).
* Code that can raise is embedded in `Except String`; the literal error
  message carried by a Python exception is abstracted to its class name
  (such as `"ValueError"`).
* The network call plus JSON decoding is an external collaborator and is
  modelled as an input of type `FetchOutcome` handed to the facade.
-/

/-- Decimal digit accumulator: the numeric value of a digit list. -/
def digitsToNat (ds : List Char) : Nat :=
  ds.foldl (fun a c => 10 * a + (c.toNat - 48)) 0

/-- Strip leading and trailing whitespace from a character list
(Python `int`/`float` accept surrounding whitespace). -/
def stripWS (cs : List Char) : List Char :=
  ((cs.dropWhile Char.isWhitespace).reverse.dropWhile Char.isWhitespace).reverse

/-- Split an optional leading sign from a numeric literal, as Python does. -/
def splitSign (cs : List Char) : Int × List Char :=
  match cs with
  | '-' :: rest => (-1, rest)
  | '+' :: rest => (1, rest)
  | _ => (1, cs)

/-- Model of Python `int(s)` on a string: optional sign, then a nonempty
run of decimal digits; `none` models a `ValueError`. -/
def pythonInt (s : String) : Option Int :=
  let cs := stripWS s.toList
  let (sign, ds) := splitSign cs
  if ds ≠ [] ∧ ds.all Char.isDigit then some (sign * (digitsToNat ds : Int)) else none

/-- Scanning stage of Python `float(s)` on a plain decimal literal:
optional sign, digits, optional fraction. Returns the sign, the integer
part, the fraction digits' value and the fraction length; `none` models a
`ValueError`. -/
def pyFloatParts (s : String) : Option (Int × Nat × Nat × Nat) :=
  let cs := stripWS s.toList
  let (sign, ds) := splitSign cs
  match ds.splitOn '.' with
  | [ip] =>
      if ip ≠ [] ∧ ip.all Char.isDigit then
        some (sign, digitsToNat ip, 0, 0)
      else none
  | [ip, fp] =>
      if (ip ≠ [] ∨ fp ≠ []) ∧ ip.all Char.isDigit ∧ fp.all Char.isDigit then
        some (sign, digitsToNat ip, digitsToNat fp, fp.length)
      else none
  | _ => none

/-- Model of Python `float(s)` on a plain decimal literal; the value is
kept exact in `ℚ`. `none` models a `ValueError`. -/
def pythonFloat (s : String) : Option ℚ :=
  (pyFloatParts s).map (fun p => (p.1 : ℚ) * ((p.2.1 : ℚ) + (p.2.2.1 : ℚ) / (10 : ℚ) ^ p.2.2.2))

/-- Python slice `s[a:b]` on a string (clamping at the end, as Python does). -/
def pySlice (s : String) (a b : Nat) : String :=
  String.mk ((s.toList.drop a).take (b - a))

/-- Python `str.upper()` (ASCII case suffices for ticker symbols). -/
def pyUpperStr (s : String) : String :=
  String.mk (s.toList.map Char.toUpper)

/-- Round half to even to an integer, the behaviour of Python `round`
on exactly representable values. -/
def roundHalfEven (q : ℚ) : ℤ :=
  let f := ⌊q⌋
  let frac := q - (f : ℚ)
  if frac < 1 / 2 then f
  else if 1 / 2 < frac then f + 1
  else if f % 2 = 0 then f else f + 1

/-- Model of Python `round(x, 2)`. -/
def round2 (q : ℚ) : ℚ :=
  (roundHalfEven (q * 100) : ℚ) / 100

/-- A quarterly report record from the upstream `quarterlyReports` array:
the four dict keys the code reads, plus a flag recording whether the dict
has any other keys (Python truthiness of the dict is its non-emptiness). -/
structure QuarterlyReport where
  fiscalDateEnding : Option String
  totalRevenue : Option String
  operatingCashflow : Option String
  capitalExpenditures : Option String
  extraKeys : Bool
deriving DecidableEq, Repr

/-- Python falsiness of the report dict: true iff the dict is `{}`. -/
def QuarterlyReport.isEmptyDict (r : QuarterlyReport) : Bool :=
  decide (r.fiscalDateEnding = none ∧ r.totalRevenue = none ∧ r.operatingCashflow = none ∧
    r.capitalExpenditures = none ∧ r.extraKeys = false)

/-- `map_month_to_quarter` from `server.py`: map a calendar month to the
approximate fiscal quarter, `none` for the unmapped months. -/
def map_month_to_quarter (month : Int) : Option Int :=
  if month = 9 ∨ month = 10 then some 1
  else if month = 12 ∨ month = 1 then some 2
  else if month = 3 ∨ month = 4 then some 3
  else if month = 6 ∨ month = 7 then some 4
  else none

/-- The scanning loop of `find_quarterly_report` (`server.py` lines 76–86):
skip records whose date is absent or shorter than 7 characters, parse year
and month, and return the first exact match. `.error` models the
`ValueError` raised by `int()` on a non-numeric substring. -/
def findScan (reports : List QuarterlyReport) (fiscal_year fiscal_quarter : Int) :
    Except String (Option QuarterlyReport) :=
  match reports with
  | [] => .ok none
  | report :: rest =>
      let fiscal_date := report.fiscalDateEnding.getD ""
      if fiscal_date = "" ∨ fiscal_date.length < 7 then
        findScan rest fiscal_year fiscal_quarter
      else
        match pythonInt (pySlice fiscal_date 0 4), pythonInt (pySlice fiscal_date 5 7) with
        | some report_year, some report_month =>
            match map_month_to_quarter report_month with
            | some report_quarter =>
                if report_year = fiscal_year ∧ report_quarter = fiscal_quarter then
                  .ok (some report)
                else findScan rest fiscal_year fiscal_quarter
            | none => findScan rest fiscal_year fiscal_quarter
        | _, _ => .error "ValueError"

/-- `find_quarterly_report` from `server.py`: the scan above, followed by
the fallback `reports[0] if reports else None`. -/
def find_quarterly_report (reports : List QuarterlyReport) (fiscal_year fiscal_quarter : Int) :
    Except String (Option QuarterlyReport) :=
  match findScan reports fiscal_year fiscal_quarter with
  | .error e => .error e
  | .ok (some report) => .ok (some report)
  | .ok none => .ok reports.head?

/-- The quarter-selection `elif` chain of the serverless handlers
(`function_app.py` lines 123–132), keyed on the requested quarter. -/
def fnQuarterChain (fiscal_quarter report_month : Int) : Option Int :=
  if fiscal_quarter = 1 ∧ (report_month = 9 ∨ report_month = 10) then some 1
  else if fiscal_quarter = 2 ∧ (report_month = 12 ∨ report_month = 1) then some 2
  else if fiscal_quarter = 3 ∧ (report_month = 3 ∨ report_month = 4) then some 3
  else if fiscal_quarter = 4 ∧ (report_month = 6 ∨ report_month = 7) then some 4
  else none

/-- The inline matching loop of the serverless handlers
(`function_app.py` lines 117–136): no length guard — year and month are
parsed unconditionally, so an absent or short date raises `ValueError`. -/
def fnScan (reports : List QuarterlyReport) (fiscal_year fiscal_quarter : Int) :
    Except String (Option QuarterlyReport) :=
  match reports with
  | [] => .ok none
  | report :: rest =>
      let fiscal_date := report.fiscalDateEnding.getD ""
      match pythonInt (pySlice fiscal_date 0 4), pythonInt (pySlice fiscal_date 5 7) with
      | some report_year, some report_month =>
          match fnQuarterChain fiscal_quarter report_month with
          | some report_quarter =>
              if report_year = fiscal_year ∧ report_quarter = fiscal_quarter then
                .ok (some report)
              else fnScan rest fiscal_year fiscal_quarter
          | none => fnScan rest fiscal_year fiscal_quarter
      | _, _ => .error "ValueError"

/-- The serverless handlers' matching loop followed by their fallback
(`function_app.py` lines 138–142): most recent report if no exact match,
`none` only for an empty list. -/
def fnFindLoop (reports : List QuarterlyReport) (fiscal_year fiscal_quarter : Int) :
    Except String (Option QuarterlyReport) :=
  match fnScan reports fiscal_year fiscal_quarter with
  | .error e => .error e
  | .ok (some report) => .ok (some report)
  | .ok none => .ok reports.head?

deriving instance DecidableEq for Except

/-- The shared money-field idiom of both deployments
(`server.py` lines 226–230, `function_app.py` lines 268–272):
`dict.get(key, "0")`, then `float(s) if s and s != "None" else 0`. -/
def moneyValue (field : Option String) : Except String ℚ :=
  let s := field.getD "0"
  if s ≠ "" ∧ s ≠ "None" then
    match pythonFloat s with
    | some v => .ok v
    | none => .error "ValueError"
  else .ok 0

/-- Revenue extraction (`server.py` lines 143–144, `function_app.py`
lines 150–151): `round(float(totalRevenue) / 1_000_000, 2)` with the
absent / empty / `"None"` → `0` substitution. -/
def extractRevenue (report : QuarterlyReport) : Except String ℚ :=
  let revenue_str := report.totalRevenue.getD "0"
  if revenue_str ≠ "" ∧ revenue_str ≠ "None" then
    match pythonFloat revenue_str with
    | some v => .ok (round2 (v / 1000000))
    | none => .error "ValueError"
  else .ok 0

/-- Free-cash-flow extraction (`server.py` lines 226–242,
`function_app.py` lines 268–285): parse both fields, compute
`op_cashflow - abs(capex)`, and return the three reported figures
(free cash flow, operating cash flow, `|capex|`), each divided by
1,000,000 and rounded to 2 decimals. -/
def extractFCF (report : QuarterlyReport) : Except String (ℚ × ℚ × ℚ) :=
  match moneyValue report.operatingCashflow with
  | .error e => .error e
  | .ok op_cashflow =>
      match moneyValue report.capitalExpenditures with
      | .error e => .error e
      | .ok capex =>
          let free_cash_flow := op_cashflow - |capex|
          .ok (round2 (free_cash_flow / 1000000),
               round2 (op_cashflow / 1000000),
               round2 (|capex| / 1000000))

/-- `VALID_SYMBOLS` from `server.py` (also inlined as `valid_symbols` in
`function_app.py`). -/
def VALID_SYMBOLS : List String := ["MSFT", "TSLA", "NVDA"]

/-- The quarter whitelist `[1, 2, 3, 4]` used in both deployments. -/
def validQuarters : List Int := [1, 2, 3, 4]

/-- Outcome of the upstream fetch collaborator (HTTP GET plus JSON
decoding plus `data.get("quarterlyReports", [])`), handed to the facade
as an input: the decoded report list, an `httpx.HTTPError`-class failure,
or any other exception (missing API key, decode failure, ...). -/
inductive FetchOutcome where
  | ok (quarterlyReports : List QuarterlyReport)
  | httpError (msg : String)
  | otherError (msg : String)
deriving DecidableEq, Repr

/-- The success document of `get_company_revenue` in `server.py`
(lines 146–154): exactly these keys, in particular no field that flags a
fallback match. -/
structure RevenueDoc where
  company : String
  fiscal_year : Int
  fiscal_quarter : Int
  fiscal_date_ending : Option String
  total_revenue_usd_millions : ℚ
  currency : String
  data_source : String
deriving DecidableEq, Repr

/-- Result of the standalone revenue tool: a success document or an
error document `{status: "error", message}`. -/
inductive RevenueResult where
  | success (doc : RevenueDoc)
  | error (message : String)
deriving DecidableEq, Repr

/-- The success document of `get_company_free_cash_flow` (`server.py`
lines 235–246; `function_app.py` emits the same keys). -/
structure FcfDoc where
  company : String
  fiscal_year : Int
  fiscal_quarter : Int
  fiscal_date_ending : Option String
  free_cash_flow_usd_millions : ℚ
  operating_cash_flow_usd_millions : ℚ
  capital_expenditures_usd_millions : ℚ
  currency : String
  data_source : String
  calculation : String
deriving DecidableEq, Repr

/-- Result of a free-cash-flow tool invocation. -/
inductive FcfResult where
  | success (doc : FcfDoc)
  | error (message : String)
deriving DecidableEq, Repr

/-- `get_company_revenue` from `server.py` (lines 92–170), with the
network call abstracted into the `fetch` input. Validation happens before
the `try` block; everything raised inside the `try` block is converted to
an error document by the two `except` clauses. -/
def server_get_company_revenue (company_symbol : String) (fiscal_year fiscal_quarter : Int)
    (fetch : FetchOutcome) : RevenueResult :=
  let symbol := pyUpperStr company_symbol
  if symbol ∉ VALID_SYMBOLS then
    .error ("Invalid company symbol. Supported: " ++ String.intercalate ", " VALID_SYMBOLS)
  else if fiscal_quarter ∉ validQuarters then
    .error "Fiscal quarter must be 1, 2, 3, or 4"
  else
    match fetch with
    | .httpError m => .error ("HTTP error: " ++ m)
    | .otherError m => .error m
    | .ok quarterly_reports =>
        if quarterly_reports.isEmpty then .error "No quarterly data available"
        else
          match find_quarterly_report quarterly_reports fiscal_year fiscal_quarter with
          | .error m => .error m
          | .ok none =>
              .error (s!"No data found for {symbol} FY{fiscal_year} Q{fiscal_quarter}")
          | .ok (some target_period) =>
              if target_period.isEmptyDict then
                .error (s!"No data found for {symbol} FY{fiscal_year} Q{fiscal_quarter}")
              else
                match extractRevenue target_period with
                | .error m => .error m
                | .ok revenue_millions =>
                    .success
                      { company := symbol
                        fiscal_year := fiscal_year
                        fiscal_quarter := fiscal_quarter
                        fiscal_date_ending := target_period.fiscalDateEnding
                        total_revenue_usd_millions := revenue_millions
                        currency := "USD"
                        data_source := "Alpha Vantage" }

/-- `get_company_free_cash_flow` from `server.py` (lines 173–262). -/
def server_get_company_free_cash_flow (company_symbol : String) (fiscal_year fiscal_quarter : Int)
    (fetch : FetchOutcome) : FcfResult :=
  let symbol := pyUpperStr company_symbol
  if symbol ∉ VALID_SYMBOLS then
    .error ("Invalid company symbol. Supported: " ++ String.intercalate ", " VALID_SYMBOLS)
  else if fiscal_quarter ∉ validQuarters then
    .error "Fiscal quarter must be 1, 2, 3, or 4"
  else
    match fetch with
    | .httpError m => .error ("HTTP error: " ++ m)
    | .otherError m => .error m
    | .ok quarterly_reports =>
        if quarterly_reports.isEmpty then .error "No quarterly cash flow data available"
        else
          match find_quarterly_report quarterly_reports fiscal_year fiscal_quarter with
          | .error m => .error m
          | .ok none =>
              .error (s!"No data found for {symbol} FY{fiscal_year} Q{fiscal_quarter}")
          | .ok (some target_period) =>
              if target_period.isEmptyDict then
                .error (s!"No data found for {symbol} FY{fiscal_year} Q{fiscal_quarter}")
              else
                match extractFCF target_period with
                | .error m => .error m
                | .ok (fcf_millions, op_millions, capex_millions) =>
                    .success
                      { company := symbol
                        fiscal_year := fiscal_year
                        fiscal_quarter := fiscal_quarter
                        fiscal_date_ending := target_period.fiscalDateEnding
                        free_cash_flow_usd_millions := fcf_millions
                        operating_cash_flow_usd_millions := op_millions
                        capital_expenditures_usd_millions := capex_millions
                        currency := "USD"
                        data_source := "Alpha Vantage"
                        calculation := "Operating Cash Flow - Capital Expenditures" }

/-- A Python value as it may appear in the trigger arguments dict of the
serverless handlers. -/
inductive PyVal where
  | pyStr (s : String)
  | pyInt (n : Int)
  | pyNone
deriving DecidableEq, Repr

/-- Python `.upper()` on an argument value: only strings have it; on any
other value an `AttributeError` is raised. -/
def pyUpper (v : PyVal) : Except String String :=
  match v with
  | .pyStr s => .ok (pyUpperStr s)
  | _ => .error "AttributeError"

/-- Python `int(v)` on an argument value: identity on ints, `pythonInt`
on strings (`ValueError` when non-numeric), `TypeError` on `None`. -/
def pyToInt (v : PyVal) : Except String Int :=
  match v with
  | .pyInt n => .ok n
  | .pyStr s =>
      match pythonInt s with
      | some n => .ok n
      | none => .error "ValueError"
  | .pyNone => .error "TypeError"

/-- The `arguments` dict of a serverless trigger invocation: the three
keys the handlers read (`none` = key absent). -/
structure FnArgs where
  company_symbol : Option PyVal
  fiscal_year : Option PyVal
  fiscal_quarter : Option PyVal
deriving DecidableEq, Repr

/-- The remediation note attached to the serverless handlers' catch-all
error documents. -/
def fnNote : String :=
  "Make sure ALPHAVANTAGE_API_KEY is configured in your .env file"

/-- The serverless revenue success document (`function_app.py`
lines 153–162): the server document plus the extra `raw_revenue` key. -/
structure FnRevenueDoc where
  company : String
  fiscal_year : Int
  fiscal_quarter : Int
  fiscal_date_ending : Option String
  total_revenue_usd_millions : ℚ
  currency : String
  data_source : String
  raw_revenue : String
deriving DecidableEq, Repr

/-- Result document of the serverless revenue handler: success, a plain
error document, or the catch-all error document with its `note` key. -/
inductive FnRevenueResult where
  | success (doc : FnRevenueDoc)
  | error (message : String)
  | errorNote (message note : String)
deriving DecidableEq, Repr

/-- Result document of the serverless free-cash-flow handler. -/
inductive FnFcfResult where
  | success (doc : FcfDoc)
  | error (message : String)
  | errorNote (message note : String)
deriving DecidableEq, Repr

/-- The `try` block of the serverless revenue handler (`function_app.py`
lines 100–173): any exception inside it (transport, missing key, parse)
is caught by the catch-all `except` and becomes an error document with
the remediation note. -/
def fnRevenueTry (symbol : String) (fiscal_year fiscal_quarter : Int)
    (fetch : FetchOutcome) : FnRevenueResult :=
  match fetch with
  | .httpError m => .errorNote m fnNote
  | .otherError m => .errorNote m fnNote
  | .ok quarterly_reports =>
      match fnFindLoop quarterly_reports fiscal_year fiscal_quarter with
      | .error m => .errorNote m fnNote
      | .ok none => .error "No quarterly data available"
      | .ok (some target_period) =>
          match extractRevenue target_period with
          | .error m => .errorNote m fnNote
          | .ok revenue_millions =>
              .success
                { company := symbol
                  fiscal_year := fiscal_year
                  fiscal_quarter := fiscal_quarter
                  fiscal_date_ending := target_period.fiscalDateEnding
                  total_revenue_usd_millions := revenue_millions
                  currency := "USD"
                  data_source := "Alpha Vantage"
                  raw_revenue := target_period.totalRevenue.getD "0" }

/-- The `try` block of the serverless free-cash-flow handler
(`function_app.py` lines 218–300). -/
def fnFcfTry (symbol : String) (fiscal_year fiscal_quarter : Int)
    (fetch : FetchOutcome) : FnFcfResult :=
  match fetch with
  | .httpError m => .errorNote m fnNote
  | .otherError m => .errorNote m fnNote
  | .ok quarterly_reports =>
      match fnFindLoop quarterly_reports fiscal_year fiscal_quarter with
      | .error m => .errorNote m fnNote
      | .ok none => .error "No quarterly cash flow data available"
      | .ok (some target_period) =>
          match extractFCF target_period with
          | .error m => .errorNote m fnNote
          | .ok (fcf_millions, op_millions, capex_millions) =>
              .success
                { company := symbol
                  fiscal_year := fiscal_year
                  fiscal_quarter := fiscal_quarter
                  fiscal_date_ending := target_period.fiscalDateEnding
                  free_cash_flow_usd_millions := fcf_millions
                  operating_cash_flow_usd_millions := op_millions
                  capital_expenditures_usd_millions := capex_millions
                  currency := "USD"
                  data_source := "Alpha Vantage"
                  calculation := "Operating Cash Flow - Capital Expenditures" }

/-- The serverless revenue handler `get_company_revenue` from
`function_app.py` (lines 73–173). Argument coercion (`.upper()`,
`int(...)`) happens BEFORE the `try` block, so its exceptions escape the
handler: they surface as the outer `.error` of this embedding. -/
def fn_get_company_revenue (args : FnArgs) (fetch : FetchOutcome) :
    Except String FnRevenueResult :=
  match pyUpper (args.company_symbol.getD (.pyStr "MSFT")) with
  | .error e => .error e
  | .ok symbol =>
      match pyToInt (args.fiscal_year.getD (.pyInt 2024)) with
      | .error e => .error e
      | .ok fiscal_year =>
          match pyToInt (args.fiscal_quarter.getD (.pyInt 4)) with
          | .error e => .error e
          | .ok fiscal_quarter =>
              if symbol ∉ VALID_SYMBOLS then
                .ok (.error ("Invalid company symbol. Supported: " ++
                  String.intercalate ", " VALID_SYMBOLS))
              else if fiscal_quarter ∉ validQuarters then
                .ok (.error "Fiscal quarter must be 1, 2, 3, or 4")
              else
                .ok (fnRevenueTry symbol fiscal_year fiscal_quarter fetch)

/-- The serverless free-cash-flow handler `get_company_free_cash_flow`
from `function_app.py` (lines 191–300). -/
def fn_get_company_free_cash_flow (args : FnArgs) (fetch : FetchOutcome) :
    Except String FnFcfResult :=
  match pyUpper (args.company_symbol.getD (.pyStr "MSFT")) with
  | .error e => .error e
  | .ok symbol =>
      match pyToInt (args.fiscal_year.getD (.pyInt 2024)) with
      | .error e => .error e
      | .ok fiscal_year =>
          match pyToInt (args.fiscal_quarter.getD (.pyInt 4)) with
          | .error e => .error e
          | .ok fiscal_quarter =>
              if symbol ∉ VALID_SYMBOLS then
                .ok (.error ("Invalid company symbol. Supported: " ++
                  String.intercalate ", " VALID_SYMBOLS))
              else if fiscal_quarter ∉ validQuarters then
                .ok (.error "Fiscal quarter must be 1, 2, 3, or 4")
              else
                .ok (fnFcfTry symbol fiscal_year fiscal_quarter fetch)

/-- The exact-match predicate actually implemented by the standalone
matcher: date present, at least 7 characters, its first 4 characters
parse to the requested year, and the month at positions 5:7 maps to the
requested quarter. -/
def exactMatch (report : QuarterlyReport) (fiscal_year fiscal_quarter : Int) : Bool :=
  let d := report.fiscalDateEnding.getD ""
  if d = "" ∨ d.length < 7 then false
  else
    match pythonInt (pySlice d 0 4), pythonInt (pySlice d 5 7) with
    | some y, some m => decide (y = fiscal_year ∧ map_month_to_quarter m = some fiscal_quarter)
    | _, _ => false

/-- The matching predicate as worded by the claim about the Report
Matcher (no date-validity guard): the date's first 4 characters parse to
the requested year, and the characters at positions 5:7 parse to a month
that maps to the requested quarter. Kept separate from `exactMatch` so
the two can be compared against the implementation. -/
def claimMatch (report : QuarterlyReport) (fiscal_year fiscal_quarter : Int) : Bool :=
  let d := report.fiscalDateEnding.getD ""
  match pythonInt (pySlice d 0 4), pythonInt (pySlice d 5 7) with
  | some y, some m => decide (y = fiscal_year ∧ map_month_to_quarter m = some fiscal_quarter)
  | _, _ => false

/-- A record the standalone scan can process without raising: its date is
either skipped by the guard (absent or shorter than 7 characters) or both
the year and the month substrings parse as integers. -/
def dateScanSafe (report : QuarterlyReport) : Prop :=
  report.fiscalDateEnding.getD "" = "" ∨ (report.fiscalDateEnding.getD "").length < 7 ∨
    ((pythonInt (pySlice (report.fiscalDateEnding.getD "") 0 4)).isSome = true ∧
      (pythonInt (pySlice (report.fiscalDateEnding.getD "") 5 7)).isSome = true)

instance (report : QuarterlyReport) : Decidable (dateScanSafe report) :=
  inferInstanceAs (Decidable (_ ∨ _ ∨ (_ ∧ _)))

/-! ## Helper lemmas -/

theorem roundHalfEven_intCast (n : ℤ) : roundHalfEven (n : ℚ) = n := by
  unfold roundHalfEven
  norm_num [Int.floor_intCast]

theorem round2_intCast (n : ℤ) : round2 (n : ℚ) = (n : ℚ) := by
  unfold round2
  rw [show ((n : ℚ) * 100) = ((n * 100 : ℤ) : ℚ) by push_cast; ring, roundHalfEven_intCast]
  push_cast
  ring

theorem round2_zero : round2 0 = 0 := by
  have h := round2_intCast 0
  push_cast at h
  exact h

theorem moneyValue_absent : moneyValue none = .ok 0 := by
  have h : pyFloatParts "0" = some (1, 0, 0, 0) := by decide
  simp [moneyValue, pythonFloat, h]

theorem moneyValue_noneStr : moneyValue (some "None") = .ok 0 := by
  simp [moneyValue]

theorem moneyValue_500M : moneyValue (some "500000000") = .ok 500000000 := by
  have h : pyFloatParts "500000000" = some (1, 500000000, 0, 0) := by decide
  simp [moneyValue, pythonFloat, h]

theorem moneyValue_neg100M : moneyValue (some "-100000000") = .ok (-100000000) := by
  have h : pyFloatParts "-100000000" = some (-1, 100000000, 0, 0) := by decide
  simp [moneyValue, pythonFloat, h]

/-- When the standalone scan returns normally, its result is exactly the
first record satisfying `exactMatch` (in input order). -/
theorem findScan_ok_eq {reports : List QuarterlyReport} {fy fq : Int}
    {o : Option QuarterlyReport} (h : findScan reports fy fq = .ok o) :
    o = reports.find? (fun r => exactMatch r fy fq) := by
  induction reports generalizing o with
  | nil =>
    simp only [findScan] at h
    cases h
    rfl
  | cons r rest ih =>
    rw [findScan] at h
    split at h
    · next hskip =>
      rw [List.find?_cons_of_neg _ (by simp [exactMatch, if_pos hskip]), ih h]
    · next hskip =>
      split at h
      · next y m hy hm =>
        split at h
        · next q hq =>
          split at h
          · next hmatch =>
            cases h
            rw [List.find?_cons_of_pos]
            simp [exactMatch, if_neg hskip, hy, hm, hq, hmatch.1, hmatch.2]
          · next hmatch =>
            rw [List.find?_cons_of_neg, ih h]
            simp only [exactMatch, if_neg hskip, hy, hm, hq]
            simp
            intro h1 h2
            exact absurd ⟨h1, by rw [h2]⟩ hmatch
        · next hq =>
          rw [List.find?_cons_of_neg, ih h]
          simp [exactMatch, if_neg hskip, hy, hm, hq]
      · next hy hm =>
        exact absurd h (by simp)

/-- The serverless `elif` chain, keyed on the requested quarter, agrees
with filtering `map_month_to_quarter` for that quarter. -/
theorem fnQuarterChain_eq (fq m : Int) :
    fnQuarterChain fq m = if map_month_to_quarter m = some fq then some fq else none := by
  unfold fnQuarterChain map_month_to_quarter
  split_ifs <;> simp_all <;> omega

/-- On report lists whose period-end dates all have at least 7
characters, the serverless scanning loop agrees with the standalone one. -/
theorem fnScan_eq_findScan {reports : List QuarterlyReport} {fy fq : Int}
    (h : ∀ r ∈ reports, 7 ≤ (r.fiscalDateEnding.getD "").length) :
    fnScan reports fy fq = findScan reports fy fq := by
  induction reports with
  | nil => rfl
  | cons r rest ih =>
    have hr : 7 ≤ (r.fiscalDateEnding.getD "").length := h r (by simp)
    have hrest : ∀ x ∈ rest, 7 ≤ (x.fiscalDateEnding.getD "").length :=
      fun x hx => h x (List.mem_cons_of_mem _ hx)
    have hne : ¬((r.fiscalDateEnding.getD "") = "" ∨ (r.fiscalDateEnding.getD "").length < 7) := by
      push_neg
      refine ⟨?_, by omega⟩
      intro he
      rw [he] at hr
      norm_num at hr
    rw [fnScan, findScan, if_neg hne]
    rcases hy : pythonInt (pySlice (r.fiscalDateEnding.getD "") 0 4) with _ | y <;>
      rcases hm : pythonInt (pySlice (r.fiscalDateEnding.getD "") 5 7) with _ | m <;>
      simp only [hy, hm]
    rw [fnQuarterChain_eq]
    rcases hq : map_month_to_quarter m with _ | q
    · simp only [hq, reduceIte]
      exact ih hrest
    · by_cases hqq : q = fq
      · subst hqq
        simp only [hq, eq_self_iff_true, if_true, and_true]
        by_cases hmatch : y = fy
        · rw [if_pos hmatch, if_pos hmatch]
        · rw [if_neg hmatch, if_neg hmatch]
          exact ih hrest
      · have hne2 : ¬((some q : Option Int) = some fq) := by simp [hqq]
        have hne3 : ¬(y = fy ∧ q = fq) := fun hc => hqq hc.2
        rw [if_neg hne2]
        simp only [if_neg hne3]
        exact ih hrest

/-- Loop-plus-fallback version of `fnScan_eq_findScan`. -/
theorem fnFindLoop_eq_find {reports : List QuarterlyReport} {fy fq : Int}
    (h : ∀ r ∈ reports, 7 ≤ (r.fiscalDateEnding.getD "").length) :
    fnFindLoop reports fy fq = find_quarterly_report reports fy fq := by
  unfold fnFindLoop find_quarterly_report
  rw [fnScan_eq_findScan h]

/-- The standalone scan returns (rather than raising) on any list of
scan-safe records. -/
theorem findScan_ok_of_safe (fy fq : Int) {reports : List QuarterlyReport}
    (h : ∀ r ∈ reports, dateScanSafe r) :
    ∃ o, findScan reports fy fq = .ok o := by
  induction reports with
  | nil => exact ⟨none, rfl⟩
  | cons r rest ih =>
    have hr := h r (by simp)
    have hrest : ∀ x ∈ rest, dateScanSafe x := fun x hx => h x (List.mem_cons_of_mem _ hx)
    rw [findScan]
    by_cases hskip : (r.fiscalDateEnding.getD "" = "" ∨ (r.fiscalDateEnding.getD "").length < 7)
    · simp only [if_pos hskip]
      exact ih hrest
    · simp only [if_neg hskip]
      unfold dateScanSafe at hr
      rcases hr with h1 | h2 | ⟨hy, hm⟩
      · exact absurd (Or.inl h1) hskip
      · exact absurd (Or.inr h2) hskip
      · rcases hoy : pythonInt (pySlice (r.fiscalDateEnding.getD "") 0 4) with _ | y
        · rw [hoy] at hy
          simp at hy
        · rcases hom : pythonInt (pySlice (r.fiscalDateEnding.getD "") 5 7) with _ | m
          · rw [hom] at hm
            simp at hm
          · simp only [hoy, hom]
            rcases hq : map_month_to_quarter m with _ | q <;> simp only [hq]
            · exact ih hrest
            · by_cases hmatch : y = fy ∧ q = fq
              · rw [if_pos hmatch]
                exact ⟨some r, rfl⟩
              · rw [if_neg hmatch]
                exact ih hrest

/-- Free-cash-flow extraction on a record whose money fields are both the
literal string "None": every reported figure is 0. -/
theorem extractFCF_none_fields :
    extractFCF ⟨some "2023-01-31", some "None", some "None", some "None", false⟩ =
      .ok (0, 0, 0) := by
  simp only [extractFCF, moneyValue_noneStr]
  simp [round2_zero]

/-! ## Claim theorems -/

theorem moneyValue_zero_of_missing {f : Option String} (h : f = none ∨ f = some "None") :
    moneyValue f = .ok 0 := by
  rcases h with h | h <;> rw [h]
  · exact moneyValue_absent
  · exact moneyValue_noneStr

theorem pythonFloat_zero : pythonFloat "0" = some 0 := by
  have h0 : pyFloatParts "0" = some (1, 0, 0, 0) := by decide
  simp [pythonFloat, h0]

theorem extractRevenue_zero_of_missing {report : QuarterlyReport}
    (h : report.totalRevenue = none ∨ report.totalRevenue = some "None") :
    extractRevenue report = .ok 0 := by
  rcases h with h | h <;> simp [extractRevenue, h, pythonFloat_zero, round2_zero]

theorem abs_neg100M : |(-100000000 : ℚ)| = 100000000 := by
  rw [abs_neg]
  exact abs_of_nonneg (by norm_num)

/-- C4: the Quarter Mapper sends months 9 and 10 to quarter 1, 12 and 1
to quarter 2, 3 and 4 to quarter 3, 6 and 7 to quarter 4, and months
2, 5, 8, 11 to none — the full table over months 1..12. -/
theorem c4_quarter_mapper_table :
    map_month_to_quarter 9 = some 1 ∧ map_month_to_quarter 10 = some 1 ∧
    map_month_to_quarter 12 = some 2 ∧ map_month_to_quarter 1 = some 2 ∧
    map_month_to_quarter 3 = some 3 ∧ map_month_to_quarter 4 = some 3 ∧
    map_month_to_quarter 6 = some 4 ∧ map_month_to_quarter 7 = some 4 ∧
    map_month_to_quarter 2 = none ∧ map_month_to_quarter 5 = none ∧
    map_month_to_quarter 8 = none ∧ map_month_to_quarter 11 = none := by
  decide

/-- C3 counterexample: on `totalRevenue = "123000000"` the extractor
returns 123.0 (USD millions), not 0.12 as the claim computes. -/
theorem c3_revenue_not_point12 :
    extractRevenue ⟨none, some "123000000", none, none, false⟩ = .ok 123 ∧
    (123 : ℚ) ≠ 12 / 100 := by
  constructor
  · have h : pyFloatParts "123000000" = some (1, 123000000, 0, 0) := by decide
    simp [extractRevenue, pythonFloat, h]
    rw [show ((123000000 : ℚ) / 1000000) = ((123 : ℤ) : ℚ) by norm_num, round2_intCast]
    norm_num
  · norm_num

/-- C3 (amended): absent or `"None"` revenue yields 0, and
`totalRevenue = "123000000"` yields 123.0 USD millions. -/
theorem c3_revenue_extraction :
    (∀ report : QuarterlyReport,
        report.totalRevenue = none ∨ report.totalRevenue = some "None" →
        extractRevenue report = .ok 0) ∧
    extractRevenue ⟨none, some "123000000", none, none, false⟩ = .ok 123 := by
  constructor
  · intro report h
    exact extractRevenue_zero_of_missing h
  · have h : pyFloatParts "123000000" = some (1, 123000000, 0, 0) := by decide
    simp [extractRevenue, pythonFloat, h]
    rw [show ((123000000 : ℚ) / 1000000) = ((123 : ℤ) : ℚ) by norm_num, round2_intCast]
    norm_num

theorem c3_revenue_extraction_witness :
    extractRevenue ⟨some "2024-06-30", some "None", none, none, false⟩ = .ok 0 :=
  c3_revenue_extraction.1 ⟨some "2024-06-30", some "None", none, none, false⟩ (Or.inr rfl)

/-- C1: free cash flow = operating cash flow minus |capex|, each figure
divided by 1,000,000 and rounded to 2 decimals; absent or "None" fields
count as 0; the 500M / -100M example yields 400.0 and capex 100.0. -/
theorem c1_free_cash_flow_extraction :
    (∀ (report : QuarterlyReport) (op capex : ℚ),
        moneyValue report.operatingCashflow = .ok op →
        moneyValue report.capitalExpenditures = .ok capex →
        extractFCF report = .ok (round2 ((op - |capex|) / 1000000),
          round2 (op / 1000000), round2 (|capex| / 1000000))) ∧
    (∀ f : Option String, f = none ∨ f = some "None" → moneyValue f = .ok 0) ∧
    extractFCF ⟨some "2024-06-30", none, some "500000000", some "-100000000", false⟩ =
      .ok (400, 500, 100) := by
  refine ⟨?_, ?_, ?_⟩
  · intro report op capex h1 h2
    simp only [extractFCF, h1, h2]
  · intro f h
    exact moneyValue_zero_of_missing h
  · simp only [extractFCF, moneyValue_500M, moneyValue_neg100M, abs_neg100M]
    have e1 : round2 ((500000000 - (100000000 : ℚ)) / 1000000) = 400 := by
      rw [show ((500000000 - (100000000 : ℚ)) / 1000000) = ((400 : ℤ) : ℚ) by norm_num,
        round2_intCast]
      norm_num
    have e2 : round2 ((500000000 : ℚ) / 1000000) = 500 := by
      rw [show ((500000000 : ℚ) / 1000000) = ((500 : ℤ) : ℚ) by norm_num, round2_intCast]
      norm_num
    have e3 : round2 ((100000000 : ℚ) / 1000000) = 100 := by
      rw [show ((100000000 : ℚ) / 1000000) = ((100 : ℤ) : ℚ) by norm_num, round2_intCast]
      norm_num
    rw [e1, e2, e3]

theorem c1_free_cash_flow_extraction_witness :
    extractFCF ⟨none, none, some "500000000", some "-100000000", true⟩ =
      .ok (round2 ((500000000 - |(-100000000 : ℚ)|) / 1000000),
        round2 ((500000000 : ℚ) / 1000000), round2 (|(-100000000 : ℚ)| / 1000000)) :=
  c1_free_cash_flow_extraction.1 ⟨none, none, some "500000000", some "-100000000", true⟩
    500000000 (-100000000) moneyValue_500M moneyValue_neg100M

/-- C9: monetary derivations never fail on absent or "None" fields —
those are treated as zero and the extractors still return a value. -/
theorem c9_missing_fields_are_zero :
    ∀ (report : QuarterlyReport) (f : Option String) (op : ℚ),
      ((f = none ∨ f = some "None") → moneyValue f = .ok 0) ∧
      ((report.totalRevenue = none ∨ report.totalRevenue = some "None") →
        extractRevenue report = .ok 0) ∧
      ((report.operatingCashflow = none ∨ report.operatingCashflow = some "None") →
        (report.capitalExpenditures = none ∨ report.capitalExpenditures = some "None") →
        extractFCF report = .ok (0, 0, 0)) ∧
      (moneyValue report.operatingCashflow = .ok op →
        (report.capitalExpenditures = none ∨ report.capitalExpenditures = some "None") →
        extractFCF report = .ok (round2 (op / 1000000), round2 (op / 1000000), 0)) := by
  intro report f op
  refine ⟨fun h => moneyValue_zero_of_missing h, fun h => extractRevenue_zero_of_missing h,
    ?_, ?_⟩
  · intro h1 h2
    simp only [extractFCF, moneyValue_zero_of_missing h1, moneyValue_zero_of_missing h2]
    simp [round2_zero]
  · intro h1 h2
    simp only [extractFCF, h1, moneyValue_zero_of_missing h2]
    simp [round2_zero]

theorem c9_missing_fields_are_zero_witness :
    extractFCF ⟨none, some "None", none, some "None", false⟩ = .ok (0, 0, 0) :=
  (c9_missing_fields_are_zero ⟨none, some "None", none, some "None", false⟩ none 0).2.2.1
    (Or.inl rfl) (Or.inr rfl)

/-- C2 counterexample: a record whose date is shorter than 7 characters
("2024-6") satisfies the claim's match condition (year parses to 2024,
characters 5:7 parse to month 6, which maps to quarter 4), yet the
matcher skips it and returns the non-matching first record instead. -/
theorem c2_matcher_counterexample :
    claimMatch ⟨some "2024-6", none, none, none, false⟩ 2024 4 = true ∧
    claimMatch ⟨some "1999-01-31", none, none, none, false⟩ 2024 4 = false ∧
    find_quarterly_report
        [⟨some "1999-01-31", none, none, none, false⟩, ⟨some "2024-6", none, none, none, false⟩]
        2024 4 =
      .ok (some ⟨some "1999-01-31", none, none, none, false⟩) ∧
    (⟨some "1999-01-31", none, none, none, false⟩ : QuarterlyReport) ≠
      ⟨some "2024-6", none, none, none, false⟩ := by
  decide

/-- C2 (amended): the matcher returns `none` iff the report list is
empty; whenever it returns normally it yields the first record that
passes the date-validity guard and matches the requested period
(`exactMatch`), else the first element; and it does return normally on
every list of scan-safe records, so it can raise only when some record
has a present date of 7 or more characters whose year or month substring
is non-numeric. -/
theorem c2_matcher_behaviour :
    ∀ (reports : List QuarterlyReport) (fy fq : Int),
      (find_quarterly_report reports fy fq = .ok none ↔ reports = []) ∧
      (∀ o : Option QuarterlyReport, find_quarterly_report reports fy fq = .ok o →
        o = (reports.find? (fun r => exactMatch r fy fq)).orElse (fun _ => reports.head?)) ∧
      ((∀ r ∈ reports, dateScanSafe r) →
        ∃ o, find_quarterly_report reports fy fq = .ok o) := by
  intro reports fy fq
  refine ⟨?_, ?_, ?_⟩
  · constructor
    · intro h
      unfold find_quarterly_report at h
      rcases hs : findScan reports fy fq with e | o2 <;> rw [hs] at h
      · exact absurd h (by simp)
      · rcases o2 with _ | r
        · simp only [Except.ok.injEq] at h
          exact List.head?_eq_none_iff.mp h
        · exact absurd h (by simp)
    · rintro rfl
      rfl
  · intro o h
    unfold find_quarterly_report at h
    rcases hs : findScan reports fy fq with e | o2 <;> rw [hs] at h
    · exact absurd h (by simp)
    · have hfind := findScan_ok_eq hs
      rcases o2 with _ | r
      · cases h
        rw [← hfind]
        rfl
      · cases h
        rw [← hfind]
        rfl
  · intro hsafe
    obtain ⟨o, ho⟩ := findScan_ok_of_safe fy fq hsafe
    unfold find_quarterly_report
    rw [ho]
    rcases o with _ | r
    · exact ⟨reports.head?, rfl⟩
    · exact ⟨some r, rfl⟩

theorem c2_matcher_behaviour_witness :
    ((some ⟨some "2024-06-30", none, none, none, false⟩ : Option QuarterlyReport) =
      (([⟨some "2024-06-30", none, none, none, false⟩] : List QuarterlyReport).find?
          (fun r => exactMatch r 2024 4)).orElse
        (fun _ => ([⟨some "2024-06-30", none, none, none, false⟩] :
          List QuarterlyReport).head?)) ∧
    (∃ o, find_quarterly_report [⟨some "2024-06-30", none, none, none, false⟩] 2024 4 =
      .ok o) :=
  ⟨(c2_matcher_behaviour [⟨some "2024-06-30", none, none, none, false⟩] 2024 4).2.1
      (some ⟨some "2024-06-30", none, none, none, false⟩) (by decide),
    (c2_matcher_behaviour [⟨some "2024-06-30", none, none, none, false⟩] 2024 4).2.2
      (by decide)⟩

/-- C5: a record with an absent or short period-end date is skipped
without an exception, is never the exact-match result, and can still be
returned through the first-record fallback. -/
theorem c5_invalid_dates_skipped :
    ∀ (report : QuarterlyReport) (rest reports : List QuarterlyReport) (fy fq : Int)
      (r : QuarterlyReport),
      (report.fiscalDateEnding.getD "" = "" ∨ (report.fiscalDateEnding.getD "").length < 7) →
      (findScan (report :: rest) fy fq = findScan rest fy fq) ∧
      (findScan reports fy fq = .ok (some r) →
        ¬(r.fiscalDateEnding.getD "" = "" ∨ (r.fiscalDateEnding.getD "").length < 7)) ∧
      find_quarterly_report [report] fy fq = .ok (some report) := by
  intro report rest reports fy fq r hbad
  refine ⟨?_, ?_, ?_⟩
  · rw [findScan]
    simp only [if_pos hbad]
  · intro hscan hc
    have h := findScan_ok_eq hscan
    have hm := List.find?_some h.symm
    simp only [exactMatch, if_pos hc] at hm
    exact Bool.false_ne_true hm
  · unfold find_quarterly_report
    rw [findScan]
    simp only [if_pos hbad]
    rfl

theorem c5_invalid_dates_skipped_witness :
    (findScan [⟨some "2024-6", none, none, none, false⟩] 2024 4 = findScan [] 2024 4) ∧
    find_quarterly_report [⟨some "2024-6", none, none, none, false⟩] 2024 4 =
      .ok (some ⟨some "2024-6", none, none, none, false⟩) := by
  have h := c5_invalid_dates_skipped ⟨some "2024-6", none, none, none, false⟩ [] [] 2024 4
    ⟨some "2024-6", none, none, none, false⟩ (by decide)
  exact ⟨h.1, h.2.2⟩

/-- C7 counterexample, two divergences. On a record with an absent
period-end date the standalone matcher skips it and falls back to it,
while the serverless loop raises a ValueError. On a non-matching record
followed by a short-dated one ("2024-6") the standalone matcher skips
the short date and falls back to the first record, while the serverless
loop parses the short date (month substring "6" parses to 6, quarter 4)
and selects that second record as an exact match. So the two deployments
do not implement identical matching rules. -/
theorem c7_matchers_diverge :
    (find_quarterly_report [⟨none, none, none, none, true⟩] 2024 4 =
        .ok (some ⟨none, none, none, none, true⟩) ∧
      fnFindLoop [⟨none, none, none, none, true⟩] 2024 4 = .error "ValueError") ∧
    (find_quarterly_report
          [⟨some "1999-01-31", none, none, none, false⟩,
            ⟨some "2024-6", none, none, none, false⟩] 2024 4 =
        .ok (some ⟨some "1999-01-31", none, none, none, false⟩) ∧
      fnFindLoop
          [⟨some "1999-01-31", none, none, none, false⟩,
            ⟨some "2024-6", none, none, none, false⟩] 2024 4 =
        .ok (some ⟨some "2024-6", none, none, none, false⟩) ∧
      (⟨some "1999-01-31", none, none, none, false⟩ : QuarterlyReport) ≠
        ⟨some "2024-6", none, none, none, false⟩) := by
  decide

/-- C7 (amended): the two matchers agree on every report list whose
period-end dates are all present with at least 7 characters. -/
theorem c7_matchers_agree :
    ∀ (reports : List QuarterlyReport) (fy fq : Int),
      (∀ r ∈ reports, 7 ≤ (r.fiscalDateEnding.getD "").length) →
      fnFindLoop reports fy fq = find_quarterly_report reports fy fq :=
  fun _ _ _ h => fnFindLoop_eq_find h

theorem c7_matchers_agree_witness :
    fnFindLoop [⟨some "2024-06-30", none, none, none, false⟩] 2024 4 =
      find_quarterly_report [⟨some "2024-06-30", none, none, none, false⟩] 2024 4 :=
  c7_matchers_agree [⟨some "2024-06-30", none, none, none, false⟩] 2024 4 (by decide)

/-- C8: with an invalid symbol or quarter, both standalone tools return a
validation error result whose value does not depend on the fetch
collaborator at all (the model of "collaborator call count = 0"). -/
theorem c8_validation_before_fetch :
    ∀ (company_symbol : String) (fy fq : Int) (f1 f2 : FetchOutcome),
      (pyUpperStr company_symbol ∉ VALID_SYMBOLS ∨ fq ∉ validQuarters) →
      server_get_company_revenue company_symbol fy fq f1 =
        server_get_company_revenue company_symbol fy fq f2 ∧
      (∃ m, server_get_company_revenue company_symbol fy fq f1 = .error m) ∧
      server_get_company_free_cash_flow company_symbol fy fq f1 =
        server_get_company_free_cash_flow company_symbol fy fq f2 ∧
      (∃ m, server_get_company_free_cash_flow company_symbol fy fq f1 = .error m) := by
  intro cs fy fq f1 f2 h
  unfold server_get_company_revenue server_get_company_free_cash_flow
  by_cases hs : pyUpperStr cs ∈ VALID_SYMBOLS
  · have hq : fq ∉ validQuarters := by tauto
    simp only [if_neg (not_not_intro hs), if_pos hq]
    exact ⟨trivial, ⟨_, rfl⟩, trivial, ⟨_, rfl⟩⟩
  · simp only [if_pos hs]
    exact ⟨trivial, ⟨_, rfl⟩, trivial, ⟨_, rfl⟩⟩

theorem c8_validation_before_fetch_witness :
    server_get_company_revenue "GOOG" 2024 4 (.ok []) =
      server_get_company_revenue "GOOG" 2024 4 (.httpError "timeout") ∧
    (∃ m, server_get_company_revenue "GOOG" 2024 4 (.ok []) = .error m) ∧
    server_get_company_free_cash_flow "GOOG" 2024 4 (.ok []) =
      server_get_company_free_cash_flow "GOOG" 2024 4 (.httpError "timeout") ∧
    (∃ m, server_get_company_free_cash_flow "GOOG" 2024 4 (.ok []) = .error m) :=
  c8_validation_before_fetch "GOOG" 2024 4 (.ok []) (.httpError "timeout") (by decide)

/-- C10: in every tool of both deployments, on a fallback match (the
scan finds no exact match and the first record is substituted) the
success document still carries the requested fiscal year and quarter
unchanged, and only `fiscal_date_ending` (and the derived values) comes
from the record — the document is built by the same constructor as an
exact match and has no field marking the fallback. -/
theorem c10_fallback_carries_requested_period :
    ∀ (company_symbol : String) (args : FnArgs) (sym : String) (fy fq : Int)
      (r : QuarterlyReport) (rs : List QuarterlyReport) (v f o c : ℚ),
      (pyUpperStr company_symbol ∈ VALID_SYMBOLS → fq ∈ validQuarters →
        findScan (r :: rs) fy fq = .ok none → r.isEmptyDict = false →
        extractRevenue r = .ok v →
        server_get_company_revenue company_symbol fy fq (.ok (r :: rs)) =
          .success { company := pyUpperStr company_symbol, fiscal_year := fy,
                     fiscal_quarter := fq, fiscal_date_ending := r.fiscalDateEnding,
                     total_revenue_usd_millions := v, currency := "USD",
                     data_source := "Alpha Vantage" }) ∧
      (pyUpperStr company_symbol ∈ VALID_SYMBOLS → fq ∈ validQuarters →
        findScan (r :: rs) fy fq = .ok none → r.isEmptyDict = false →
        extractFCF r = .ok (f, o, c) →
        server_get_company_free_cash_flow company_symbol fy fq (.ok (r :: rs)) =
          .success { company := pyUpperStr company_symbol, fiscal_year := fy,
                     fiscal_quarter := fq, fiscal_date_ending := r.fiscalDateEnding,
                     free_cash_flow_usd_millions := f,
                     operating_cash_flow_usd_millions := o,
                     capital_expenditures_usd_millions := c, currency := "USD",
                     data_source := "Alpha Vantage",
                     calculation := "Operating Cash Flow - Capital Expenditures" }) ∧
      (pyUpper (args.company_symbol.getD (.pyStr "MSFT")) = .ok sym →
        pyToInt (args.fiscal_year.getD (.pyInt 2024)) = .ok fy →
        pyToInt (args.fiscal_quarter.getD (.pyInt 4)) = .ok fq →
        sym ∈ VALID_SYMBOLS → fq ∈ validQuarters →
        fnScan (r :: rs) fy fq = .ok none →
        extractRevenue r = .ok v →
        fn_get_company_revenue args (.ok (r :: rs)) =
          .ok (.success { company := sym, fiscal_year := fy, fiscal_quarter := fq,
                          fiscal_date_ending := r.fiscalDateEnding,
                          total_revenue_usd_millions := v, currency := "USD",
                          data_source := "Alpha Vantage",
                          raw_revenue := r.totalRevenue.getD "0" })) ∧
      (pyUpper (args.company_symbol.getD (.pyStr "MSFT")) = .ok sym →
        pyToInt (args.fiscal_year.getD (.pyInt 2024)) = .ok fy →
        pyToInt (args.fiscal_quarter.getD (.pyInt 4)) = .ok fq →
        sym ∈ VALID_SYMBOLS → fq ∈ validQuarters →
        fnScan (r :: rs) fy fq = .ok none →
        extractFCF r = .ok (f, o, c) →
        fn_get_company_free_cash_flow args (.ok (r :: rs)) =
          .ok (.success { company := sym, fiscal_year := fy, fiscal_quarter := fq,
                          fiscal_date_ending := r.fiscalDateEnding,
                          free_cash_flow_usd_millions := f,
                          operating_cash_flow_usd_millions := o,
                          capital_expenditures_usd_millions := c, currency := "USD",
                          data_source := "Alpha Vantage",
                          calculation := "Operating Cash Flow - Capital Expenditures" })) := by
  intro cs args sym fy fq r rs v f o c
  have hfind : findScan (r :: rs) fy fq = .ok none →
      find_quarterly_report (r :: rs) fy fq = .ok (some r) := by
    intro hscan
    unfold find_quarterly_report
    rw [hscan]
    rfl
  have hfnfind : fnScan (r :: rs) fy fq = .ok none →
      fnFindLoop (r :: rs) fy fq = .ok (some r) := by
    intro hscan
    unfold fnFindLoop
    rw [hscan]
    rfl
  refine ⟨?_, ?_, ?_, ?_⟩
  · intro hs hq hscan hne hext
    unfold server_get_company_revenue
    simp only [if_neg (not_not_intro hs), if_neg (not_not_intro hq), List.isEmpty_cons,
      Bool.false_eq_true, if_false, hfind hscan, hne, hext]
  · intro hs hq hscan hne hext
    unfold server_get_company_free_cash_flow
    simp only [if_neg (not_not_intro hs), if_neg (not_not_intro hq), List.isEmpty_cons,
      Bool.false_eq_true, if_false, hfind hscan, hne, hext]
  · intro h1 h2 h3 hs hq hscan hext
    unfold fn_get_company_revenue
    simp only [h1, h2, h3]
    rw [if_neg (not_not_intro hs), if_neg (not_not_intro hq)]
    unfold fnRevenueTry
    simp only [hfnfind hscan, hext]
  · intro h1 h2 h3 hs hq hscan hext
    unfold fn_get_company_free_cash_flow
    simp only [h1, h2, h3]
    rw [if_neg (not_not_intro hs), if_neg (not_not_intro hq)]
    unfold fnFcfTry
    simp only [hfnfind hscan, hext]

theorem c10_fallback_carries_requested_period_witness :
    server_get_company_revenue "msft" 2024 4
        (.ok [⟨some "2023-01-31", some "None", some "None", some "None", false⟩]) =
      .success { company := pyUpperStr "msft", fiscal_year := 2024, fiscal_quarter := 4,
                 fiscal_date_ending := some "2023-01-31", total_revenue_usd_millions := 0,
                 currency := "USD", data_source := "Alpha Vantage" } ∧
    server_get_company_free_cash_flow "msft" 2024 4
        (.ok [⟨some "2023-01-31", some "None", some "None", some "None", false⟩]) =
      .success { company := pyUpperStr "msft", fiscal_year := 2024, fiscal_quarter := 4,
                 fiscal_date_ending := some "2023-01-31", free_cash_flow_usd_millions := 0,
                 operating_cash_flow_usd_millions := 0,
                 capital_expenditures_usd_millions := 0, currency := "USD",
                 data_source := "Alpha Vantage",
                 calculation := "Operating Cash Flow - Capital Expenditures" } ∧
    fn_get_company_revenue ⟨some (.pyStr "msft"), some (.pyInt 2024), some (.pyInt 4)⟩
        (.ok [⟨some "2023-01-31", some "None", some "None", some "None", false⟩]) =
      .ok (.success { company := "MSFT", fiscal_year := 2024, fiscal_quarter := 4,
                      fiscal_date_ending := some "2023-01-31",
                      total_revenue_usd_millions := 0, currency := "USD",
                      data_source := "Alpha Vantage", raw_revenue := "None" }) ∧
    fn_get_company_free_cash_flow ⟨some (.pyStr "msft"), some (.pyInt 2024), some (.pyInt 4)⟩
        (.ok [⟨some "2023-01-31", some "None", some "None", some "None", false⟩]) =
      .ok (.success { company := "MSFT", fiscal_year := 2024, fiscal_quarter := 4,
                      fiscal_date_ending := some "2023-01-31",
                      free_cash_flow_usd_millions := 0,
                      operating_cash_flow_usd_millions := 0,
                      capital_expenditures_usd_millions := 0, currency := "USD",
                      data_source := "Alpha Vantage",
                      calculation := "Operating Cash Flow - Capital Expenditures" }) := by
  have h := c10_fallback_carries_requested_period "msft"
    ⟨some (.pyStr "msft"), some (.pyInt 2024), some (.pyInt 4)⟩ "MSFT" 2024 4
    ⟨some "2023-01-31", some "None", some "None", some "None", false⟩ [] 0 0 0 0
  exact ⟨h.1 (by decide) (by decide) (by decide) (by decide) (by decide),
    h.2.1 (by decide) (by decide) (by decide) (by decide) extractFCF_none_fields,
    h.2.2.1 (by decide) (by decide) (by decide) (by decide) (by decide) (by decide) (by decide),
    h.2.2.2 (by decide) (by decide) (by decide) (by decide) (by decide) (by decide)
      extractFCF_none_fields⟩

/-- C6 counterexample: a malformed argument value (fiscal_year =
"twenty") makes the serverless handlers raise an uncaught ValueError
(the outer `.error` of the embedding) instead of returning a structured
result document. -/
theorem c6_handler_uncaught_exception :
    fn_get_company_revenue ⟨some (.pyStr "MSFT"), some (.pyStr "twenty"), some (.pyInt 4)⟩
        (.ok []) = .error "ValueError" ∧
    fn_get_company_free_cash_flow ⟨some (.pyStr "MSFT"), some (.pyStr "twenty"), some (.pyInt 4)⟩
        (.ok []) = .error "ValueError" := by
  decide

/-- C6 (amended): the standalone tools always return a structured result
document; the serverless handlers do so whenever argument coercion
(`.upper()`, `int(...)`) succeeds — coercion happens before the
`try` block, so its failures propagate. -/
theorem c6_structured_results :
    ∀ (args : FnArgs) (fetch : FetchOutcome) (sym : String) (fy fq : Int)
      (company_symbol : String) (fy2 fq2 : Int) (fetch2 : FetchOutcome),
      pyUpper (args.company_symbol.getD (.pyStr "MSFT")) = .ok sym →
      pyToInt (args.fiscal_year.getD (.pyInt 2024)) = .ok fy →
      pyToInt (args.fiscal_quarter.getD (.pyInt 4)) = .ok fq →
      (∃ d, fn_get_company_revenue args fetch = .ok d) ∧
      (∃ d, fn_get_company_free_cash_flow args fetch = .ok d) ∧
      ((∃ doc, server_get_company_revenue company_symbol fy2 fq2 fetch2 = .success doc) ∨
        (∃ m, server_get_company_revenue company_symbol fy2 fq2 fetch2 = .error m)) ∧
      ((∃ doc, server_get_company_free_cash_flow company_symbol fy2 fq2 fetch2 = .success doc) ∨
        (∃ m, server_get_company_free_cash_flow company_symbol fy2 fq2 fetch2 = .error m)) := by
  intro args fetch sym fy fq cs fy2 fq2 fetch2 h1 h2 h3
  refine ⟨?_, ?_, ?_, ?_⟩
  · unfold fn_get_company_revenue
    simp only [h1, h2, h3]
    split_ifs <;> exact ⟨_, rfl⟩
  · unfold fn_get_company_free_cash_flow
    simp only [h1, h2, h3]
    split_ifs <;> exact ⟨_, rfl⟩
  · cases hres : server_get_company_revenue cs fy2 fq2 fetch2 with
    | success doc => exact Or.inl ⟨doc, rfl⟩
    | error m => exact Or.inr ⟨m, rfl⟩
  · cases hres : server_get_company_free_cash_flow cs fy2 fq2 fetch2 with
    | success doc => exact Or.inl ⟨doc, rfl⟩
    | error m => exact Or.inr ⟨m, rfl⟩

theorem c6_structured_results_witness :
    (∃ d, fn_get_company_revenue ⟨some (.pyStr "msft"), some (.pyStr "2024"), none⟩
        (.httpError "timeout") = .ok d) ∧
    (∃ d, fn_get_company_free_cash_flow ⟨some (.pyStr "msft"), some (.pyStr "2024"), none⟩
        (.httpError "timeout") = .ok d) ∧
    ((∃ doc, server_get_company_revenue "GOOG" 2024 5 (.ok []) = .success doc) ∨
      (∃ m, server_get_company_revenue "GOOG" 2024 5 (.ok []) = .error m)) ∧
    ((∃ doc, server_get_company_free_cash_flow "GOOG" 2024 5 (.ok []) = .success doc) ∨
      (∃ m, server_get_company_free_cash_flow "GOOG" 2024 5 (.ok []) = .error m)) :=
  c6_structured_results ⟨some (.pyStr "msft"), some (.pyStr "2024"), none⟩ (.httpError "timeout")
    "MSFT" 2024 4 "GOOG" 2024 5 (.ok []) (by decide) (by decide) (by decide)
